import Mathlib

/-!
# Verification of the QiuckEx health-check engine

Shallow embedding of the backend health module:
- `src/app/backend/src/health/health.service.ts` (`HealthService.liveness`,
  `HealthService.readiness`, `withTimeout`, `mapResult`),
- `src/app/backend/src/health/env.checks.ts` (`checkEnv`),
- `src/app/backend/src/supabase/checks/supabase.check.ts` (`checkSupabase`).

The process environment is modelled as a partial map from variable names to
strings.  Asynchronous settlement is modelled explicitly: a promise either
resolves or rejects at some (virtual) time, or never settles; the timeout race
of `withTimeout` compares that settle time with the timeout bound.  Rejection
reasons are JavaScript error-like objects carrying an optional `message`
string.  The `error` field of a check result is modelled as an optional value
that can in principle hold either a plain string or an exception object, so
that "the engine only ever stores strings there" is a provable property rather
than a typing triviality.
-/

set_option autoImplicit false

/-- Check status: the string union `'ok' | 'degraded'` of the source. -/
inductive Status where
  | ok
  | degraded
  deriving DecidableEq, Repr

/-- A JavaScript rejection reason / caught exception, reduced to the only part
the health module reads: its optional `message` property.  A reason without a
usable message (e.g. a non-`Error` value) is modelled by `message = none`. -/
structure JsReason where
  message : Option String
  deriving DecidableEq, Repr

/-- A value that may occupy the `error` field of a check result: either a plain
string description or an exception-like object.  The source only ever writes
strings; keeping the exception alternative in the type makes that an actual
theorem (claim about the shape of `error`). -/
inductive ErrVal where
  | str (s : String)
  | exnObj (reason : JsReason)
  deriving DecidableEq, Repr

/-- `CheckResult`: `{ name, status, error? }` as produced by the checks and by
`mapResult`. -/
structure CheckResult where
  name : String
  status : Status
  error : Option ErrVal
  deriving DecidableEq, Repr

/-- `process.env`, a partial map from variable names to string values. -/
def Env : Type := String → Option String

/-- JavaScript truthiness test `!x` on an optional string: `true` exactly for
an absent value or the empty string (the two falsy cases that can occur for
`process.env[key]`). -/
def falsy : Option String → Bool
  | none => true
  | some s => s.isEmpty

/-- The missing-key test of `env.checks.ts`:
`!process.env[key] || process.env[key]?.length === 0`. -/
def envMissing (env : Env) (key : String) : Bool :=
  match env key with
  | none => true
  | some s => s.isEmpty || s.length == 0

/-- The `requiredVars` list of `checkEnv`. -/
def requiredVars : List String :=
  ["SUPABASE_URL", "SUPABASE_SERVICE_ROLE_KEY"]

/-- The `missing` list computed by `checkEnv`:
`requiredVars.filter((key) => !process.env[key] || process.env[key]?.length === 0)`. -/
def missingVars (env : Env) : List String :=
  requiredVars.filter (fun key => envMissing env key)

/-- `checkEnv` of `env.checks.ts`.  The body is pure, so the `catch` branch of
the source is unreachable and has no counterpart here. -/
def checkEnv (env : Env) : CheckResult :=
  let missing := missingVars env
  if missing.length > 0 then
    { name := "env"
    , status := Status.degraded
    , error := some (ErrVal.str ("Missing env vars: " ++ String.intercalate ", " missing)) }
  else
    { name := "env", status := Status.ok, error := none }

/-- Settled outcome of the Supabase ping
`supabase.from('pg_catalog.pg_tables').select('tablename').limit(1)`:
either `{ error: null }`, or a failure (a truthy `error` that the source then
throws, a transport rejection, or a `createClient` throw — all of which land in
the same `catch (err)` with `err` the reason). -/
inductive ProbeResult where
  | success
  | failure (reason : JsReason)
  deriving DecidableEq, Repr

/-- The fixed result `checkSupabase` returns when the env guard fails. -/
def supabaseNotConfigured : CheckResult :=
  { name := "supabase"
  , status := Status.degraded
  , error := some (ErrVal.str "Supabase env not configured") }

/-- `checkSupabase` of `supabase.check.ts`, parameterised by the settled
outcome of the network probe.  The guard is
`!process.env.SUPABASE_URL || !process.env.SUPABASE_SERVICE_ROLE_KEY`. -/
def checkSupabase (env : Env) (probe : ProbeResult) : CheckResult :=
  if falsy (env "SUPABASE_URL") || falsy (env "SUPABASE_SERVICE_ROLE_KEY") then
    supabaseNotConfigured
  else
    match probe with
    | ProbeResult.success =>
        { name := "supabase", status := Status.ok, error := none }
    | ProbeResult.failure reason =>
        { name := "supabase"
        , status := Status.degraded
        , error := some (ErrVal.str (reason.message.getD "Supabase unreachable")) }

/-- How a promise behaves: settles (resolves or rejects) at virtual time `t`
milliseconds, or never settles. -/
inductive AsyncOutcome (α : Type) where
  | resolves (value : α) (t : Nat)
  | rejects (reason : JsReason) (t : Nat)
  | hangs
  deriving DecidableEq, Repr

/-- Whether the promise settles strictly before `ms` milliseconds, i.e. before
the `setTimeout(ms)` timer of `withTimeout` fires. -/
def settlesBefore {α : Type} (o : AsyncOutcome α) (ms : Nat) : Bool :=
  match o with
  | AsyncOutcome.resolves _ t => t < ms
  | AsyncOutcome.rejects _ t => t < ms
  | AsyncOutcome.hangs => false

/-- A `PromiseSettledResult` as delivered by `Promise.allSettled`. -/
inductive SettledResult (α : Type) where
  | fulfilled (value : α)
  | rejected (reason : JsReason)
  deriving DecidableEq, Repr

/-- The reason `new Error('timeout')` used by `withTimeout`. -/
def timeoutReason : JsReason := { message := some "timeout" }

/-- `withTimeout` of `health.service.ts`: races the promise against a timer of
`ms` milliseconds.  Whichever side settles the outer promise first wins; a
promise that never settles loses to the timer. -/
def withTimeout {α : Type} (o : AsyncOutcome α) (ms : Nat) : SettledResult α :=
  match o with
  | AsyncOutcome.resolves v t =>
      if t < ms then SettledResult.fulfilled v else SettledResult.rejected timeoutReason
  | AsyncOutcome.rejects r t =>
      if t < ms then SettledResult.rejected r else SettledResult.rejected timeoutReason
  | AsyncOutcome.hangs => SettledResult.rejected timeoutReason

/-- `mapResult` of `health.service.ts`: a fulfilled slot passes its value
through; a rejected slot is synthesised into
`{ name: 'unknown', status: 'degraded', error: reason?.message ?? 'failed' }`. -/
def mapResult (result : SettledResult CheckResult) : CheckResult :=
  match result with
  | SettledResult.fulfilled v => v
  | SettledResult.rejected reason =>
      { name := "unknown"
      , status := Status.degraded
      , error := some (ErrVal.str (reason.message.getD "failed")) }

/-- `TIMEOUT_MS` of `health.service.ts`. -/
def TIMEOUT_MS : Nat := 1500

/-- The runner of `readiness`, generalised to any list of checks: wrap each
check in `withTimeout`, collect with `Promise.allSettled` (index-stable), and
map every slot through `mapResult`. -/
def run (checks : List (AsyncOutcome CheckResult)) (ms : Nat) : List CheckResult :=
  (checks.map (fun c => withTimeout c ms)).map mapResult

/-- `ReadinessReport`: `{ ready, checks }`. -/
structure ReadinessReport where
  ready : Bool
  checks : List CheckResult
  deriving DecidableEq, Repr

/-- The aggregation step of `readiness`:
`ready = mapped.every((c) => c.status === 'ok')`. -/
def aggregate (mapped : List CheckResult) : ReadinessReport :=
  { ready := mapped.all (fun c => decide (c.status = Status.ok)), checks := mapped }

/-- `HealthService.readiness`, parameterised by the async behaviour of its two
slots (`withTimeout(checkEnv(), ...)` feeds slot 0, `withTimeout(checkSupabase(), ...)`
feeds slot 1). -/
def readiness (envOutcome supaOutcome : AsyncOutcome CheckResult) : ReadinessReport :=
  aggregate (run [envOutcome, supaOutcome] TIMEOUT_MS)

/-- Async behaviour of `checkSupabase()`: the probe may hang (in which case the
check's promise never settles), but only when the env guard actually reaches
the probe; when the guard fails the check returns immediately. -/
inductive ProbeBehavior where
  | settles (r : ProbeResult)
  | hangs
  deriving DecidableEq, Repr

/-- The promise behaviour of a `checkSupabase()` call that, if it settles,
settles at time `t`. -/
def supabaseBehavior (env : Env) (pb : ProbeBehavior) (t : Nat) : AsyncOutcome CheckResult :=
  if falsy (env "SUPABASE_URL") || falsy (env "SUPABASE_SERVICE_ROLE_KEY") then
    AsyncOutcome.resolves supabaseNotConfigured t
  else
    match pb with
    | ProbeBehavior.settles r => AsyncOutcome.resolves (checkSupabase env r) t
    | ProbeBehavior.hangs => AsyncOutcome.hangs

/-- `HealthService.readiness` as actually wired: slot 0 is `checkEnv` (pure, it
always settles, at time `t1`), slot 1 is `checkSupabase` with probe behaviour
`pb` and settle time `t2`. -/
def readinessFull (env : Env) (pb : ProbeBehavior) (t1 t2 : Nat) : ReadinessReport :=
  readiness (AsyncOutcome.resolves (checkEnv env) t1) (supabaseBehavior env pb t2)

/-- `HealthResponseDto` as filled in by `liveness`. -/
structure HealthResponse where
  status : Status
  version : Option String
  uptime : Int
  deriving DecidableEq, Repr

/-- `HealthService.liveness`.  `startedAt` and `now` are `Date.now()` readings
in milliseconds; `Math.floor((now - startedAt) / 1000)` is floor division, so
`Int.fdiv`. -/
def liveness (env : Env) (startedAt now : Nat) : HealthResponse :=
  { status := Status.ok
  , version := env "APP_VERSION"
  , uptime := Int.fdiv ((now : Int) - (startedAt : Int)) 1000 }

/-! ## Helper lemmas -/

/-- A string has length zero exactly when it is the empty string. -/
theorem string_length_eq_zero_iff (s : String) : s.length = 0 ↔ s = "" := by
  obtain ⟨data⟩ := s
  simp [String.length, String.ext_iff, List.length_eq_zero]

/-- The missing-key test holds exactly for an absent key or an empty value. -/
theorem envMissing_iff (env : Env) (key : String) :
    envMissing env key = true ↔ env key = none ∨ env key = some "" := by
  unfold envMissing
  cases h : env key with
  | none => simp
  | some s =>
      simp only [Bool.or_eq_true, beq_iff_eq, String.isEmpty_iff,
        string_length_eq_zero_iff, or_self, Option.some.injEq]
      constructor
      · intro hs; exact Or.inr hs
      · intro hs; cases hs with
        | inl hs => cases hs
        | inr hs => exact hs

/-- `checkEnv`'s missing-key test agrees with `checkSupabase`'s truthiness
guard on every key. -/
theorem envMissing_eq_falsy (env : Env) (key : String) :
    envMissing env key = falsy (env key) := by
  unfold envMissing falsy
  cases env key with
  | none => rfl
  | some s => simp [string_length_eq_zero_iff, String.isEmpty_iff]

/-- `checkEnv` reports `ok` exactly when no required key is missing. -/
theorem checkEnv_ok_iff (env : Env) :
    (checkEnv env).status = Status.ok ↔ missingVars env = [] := by
  unfold checkEnv
  by_cases h : (missingVars env).length > 0
  · simp only [h, if_true]
    constructor
    · intro hs; cases hs
    · intro hnil; rw [hnil] at h; cases h
  · simp only [h, if_false]
    have : (missingVars env).length = 0 := by omega
    simp [List.length_eq_zero.mp this]

/-- The missing list is empty exactly when neither required key is missing. -/
theorem missingVars_eq_nil_iff (env : Env) :
    missingVars env = [] ↔
      envMissing env "SUPABASE_URL" = false
      ∧ envMissing env "SUPABASE_SERVICE_ROLE_KEY" = false := by
  unfold missingVars requiredVars
  cases h1 : envMissing env "SUPABASE_URL" <;>
    cases h2 : envMissing env "SUPABASE_SERVICE_ROLE_KEY" <;>
      simp [h1, h2]

/-! ## Claim theorems -/

/-- C1: for every list of check results, the readiness report's `ready` field
is the logical AND over all entries of `status == OK` (computed by `every`),
`ready` is `true` on the empty list (vacuous truth), and `readiness` derives
its `ready` field from its own `checks` list in exactly this way. -/
theorem ready_iff_all_ok (results : List CheckResult) :
    ((aggregate results).ready = true ↔ ∀ c ∈ results, c.status = Status.ok)
    ∧ (aggregate []).ready = true
    ∧ ∀ e s : AsyncOutcome CheckResult,
        ((readiness e s).ready = true ↔
          ∀ c ∈ (readiness e s).checks, c.status = Status.ok) := by
  refine ⟨?_, rfl, ?_⟩
  · simp [aggregate, List.all_eq_true]
  · intro e s
    simp [readiness, aggregate, List.all_eq_true]

/-- C2: whenever the timeout timer fires before the check settles, the outer
promise rejects with the `Error('timeout')` reason, and `mapResult` turns that
slot into exactly `{ name: 'unknown', status: 'degraded', error: 'timeout' }`. -/
theorem timeout_slot_result (o : AsyncOutcome CheckResult) (ms : Nat)
    (h : settlesBefore o ms = false) :
    withTimeout o ms = SettledResult.rejected timeoutReason
    ∧ mapResult (withTimeout o ms) =
        { name := "unknown"
        , status := Status.degraded
        , error := some (ErrVal.str "timeout") } := by
  cases o with
  | resolves v t =>
      simp only [settlesBefore, decide_eq_false_iff_not] at h
      simp [withTimeout, mapResult, timeoutReason, h]
  | rejects r t =>
      simp only [settlesBefore, decide_eq_false_iff_not] at h
      simp [withTimeout, mapResult, timeoutReason, h]
  | hangs =>
      simp [withTimeout, mapResult, timeoutReason]

/-- Witness for C2 at a hanging check and the production timeout bound. -/
theorem timeout_slot_result_witness :
    withTimeout (AsyncOutcome.hangs : AsyncOutcome CheckResult) TIMEOUT_MS =
      SettledResult.rejected timeoutReason
    ∧ mapResult (withTimeout (AsyncOutcome.hangs : AsyncOutcome CheckResult) TIMEOUT_MS) =
        { name := "unknown"
        , status := Status.degraded
        , error := some (ErrVal.str "timeout") } :=
  timeout_slot_result AsyncOutcome.hangs TIMEOUT_MS (by decide)

/-- C3: a check that rejects before the timer fires is captured and converted
to `{ name: 'unknown', status: 'degraded', error: <message, or 'failed' when
the reason has no message> }`; the slot always yields a well-formed
`CheckResult`, never a re-raised failure. -/
theorem failed_slot_result (r : JsReason) (t ms : Nat) (h : t < ms) :
    mapResult (withTimeout (AsyncOutcome.rejects r t) ms) =
      { name := "unknown"
      , status := Status.degraded
      , error := some (ErrVal.str (r.message.getD "failed")) }
    ∧ (r.message = none →
        mapResult (withTimeout (AsyncOutcome.rejects r t) ms) =
          { name := "unknown"
          , status := Status.degraded
          , error := some (ErrVal.str "failed") }) := by
  constructor
  · simp [withTimeout, mapResult, h]
  · intro hnone
    simp [withTimeout, mapResult, h, hnone]

/-- Witness for C3 at a reason with a message and one without. -/
theorem failed_slot_result_witness :
    mapResult (withTimeout (AsyncOutcome.rejects { message := some "connection refused" } 10) 1500) =
      { name := "unknown"
      , status := Status.degraded
      , error := some (ErrVal.str "connection refused") }
    ∧ mapResult (withTimeout (AsyncOutcome.rejects { message := none } 10) 1500) =
        { name := "unknown"
        , status := Status.degraded
        , error := some (ErrVal.str "failed") } :=
  ⟨(failed_slot_result { message := some "connection refused" } 10 1500 (by decide)).1,
   (failed_slot_result { message := none } 10 1500 (by decide)).2 rfl⟩

/-- C4: the runner returns exactly one result per input check, each slot's
result is a function of that slot's own outcome alone (index-stable, so output
order is input order and completion order is irrelevant), and the implemented
`readiness` always yields exactly two results with the env check at index 0
and the supabase check at index 1. -/
theorem run_length_and_order (checks : List (AsyncOutcome CheckResult)) (ms i : Nat) :
    (run checks ms).length = checks.length
    ∧ (run checks ms)[i]? = (checks[i]?).map (fun c => mapResult (withTimeout c ms))
    ∧ (∀ e s : AsyncOutcome CheckResult,
        (readiness e s).checks =
          [mapResult (withTimeout e TIMEOUT_MS), mapResult (withTimeout s TIMEOUT_MS)]
        ∧ (readiness e s).checks.length = 2)
    ∧ (∀ (env : Env) (pb : ProbeBehavior) (t1 t2 : Nat), t1 < TIMEOUT_MS →
        (readinessFull env pb t1 t2).checks[0]? = some (checkEnv env))
    ∧ ∀ (env : Env) (r : ProbeResult) (t1 t2 : Nat), t2 < TIMEOUT_MS →
        (readinessFull env (ProbeBehavior.settles r) t1 t2).checks[1]? =
          some (checkSupabase env r) := by
  refine ⟨?_, ?_, ?_, ?_, ?_⟩
  · simp [run]
  · simp [run, List.getElem?_map, Option.map_map]
    rfl
  · intro e s
    exact ⟨rfl, rfl⟩
  · intro env pb t1 t2 h1
    simp [readinessFull, readiness, aggregate, run, withTimeout, mapResult, h1]
  · intro env r t1 t2 h2
    by_cases hg : (falsy (env "SUPABASE_URL") || falsy (env "SUPABASE_SERVICE_ROLE_KEY")) = true
    · simp [readinessFull, readiness, aggregate, run, supabaseBehavior, withTimeout,
        mapResult, checkSupabase, hg, h2]
    · simp [readinessFull, readiness, aggregate, run, supabaseBehavior, withTimeout,
        mapResult, checkSupabase, hg, h2]

/-- Witness for C4 at a concrete environment, probe outcome and settle times. -/
theorem run_length_and_order_witness :
    (readinessFull (fun _ => none) ProbeBehavior.hangs 0 0).checks[0]? =
      some (checkEnv (fun _ => none))
    ∧ (readinessFull (fun _ => none) (ProbeBehavior.settles ProbeResult.success) 0 0).checks[1]? =
        some (checkSupabase (fun _ => none) ProbeResult.success) :=
  ⟨(run_length_and_order [] 0 0).2.2.2.1 (fun _ => none) ProbeBehavior.hangs 0 0 (by decide),
   (run_length_and_order [] 0 0).2.2.2.2 (fun _ => none) ProbeResult.success 0 0 (by decide)⟩

/-- C5: `checkEnv` is always named `"env"`; a required key is missing exactly
when it is absent or the empty string; with at least one missing key the result
is degraded with `"Missing env vars: "` followed by the comma-joined
insertion-order list of missing names, and otherwise the result is ok with no
`error` field. -/
theorem checkEnv_spec (env : Env) :
    (checkEnv env).name = "env"
    ∧ (∀ k, k ∈ missingVars env ↔
        k ∈ requiredVars ∧ (env k = none ∨ env k = some ""))
    ∧ (missingVars env ≠ [] →
        checkEnv env =
          { name := "env"
          , status := Status.degraded
          , error := some (ErrVal.str
              ("Missing env vars: " ++ String.intercalate ", " (missingVars env))) })
    ∧ (missingVars env = [] →
        checkEnv env = { name := "env", status := Status.ok, error := none }) := by
  refine ⟨?_, ?_, ?_, ?_⟩
  · unfold checkEnv
    by_cases h : (missingVars env).length > 0 <;> simp [h]
  · intro k
    simp [missingVars, List.mem_filter, envMissing_iff]
  · intro h
    have hpos : (missingVars env).length > 0 := List.length_pos.mpr h
    simp [checkEnv, hpos]
  · intro h
    simp [checkEnv, h]

/-- Witness for C5 at an environment missing one of the two required keys. -/
theorem checkEnv_spec_witness :
    checkEnv (fun k => if k = "SUPABASE_URL" then some "https://x.example" else none) =
      { name := "env"
      , status := Status.degraded
      , error := some (ErrVal.str
          ("Missing env vars: " ++ String.intercalate ", "
            (missingVars (fun k => if k = "SUPABASE_URL" then some "https://x.example" else none)))) } :=
  (checkEnv_spec (fun k => if k = "SUPABASE_URL" then some "https://x.example" else none)).2.2.1
    (by decide)

/-- C6: when a required connection configuration value is falsy, `checkSupabase`
returns the fixed degraded "Supabase env not configured" result whatever the
probe would do — even a hanging probe is never reached, so the check's promise
still resolves immediately; and on every execution path `checkSupabase`
terminates in a value that is either ok or degraded with a string message. -/
theorem checkSupabase_guard_and_total (env : Env) :
    ((falsy (env "SUPABASE_URL") || falsy (env "SUPABASE_SERVICE_ROLE_KEY")) = true →
      (∀ probe, checkSupabase env probe = supabaseNotConfigured)
      ∧ ∀ t, supabaseBehavior env ProbeBehavior.hangs t =
          AsyncOutcome.resolves supabaseNotConfigured t)
    ∧ ∀ probe, (checkSupabase env probe).status = Status.ok
        ∨ ((checkSupabase env probe).status = Status.degraded
          ∧ ∃ s, (checkSupabase env probe).error = some (ErrVal.str s)) := by
  constructor
  · intro hg
    constructor
    · intro probe
      simp [checkSupabase, hg]
    · intro t
      simp [supabaseBehavior, hg]
  · intro probe
    by_cases hg : (falsy (env "SUPABASE_URL") || falsy (env "SUPABASE_SERVICE_ROLE_KEY")) = true
    · right
      simp [checkSupabase, hg, supabaseNotConfigured]
    · cases probe with
      | success => left; simp [checkSupabase, hg]
      | failure reason => right; simp [checkSupabase, hg]

/-- Witness for C6 at the empty environment: the guard fires and no probe
outcome matters. -/
theorem checkSupabase_guard_witness :
    checkSupabase (fun _ => none) (ProbeResult.failure { message := some "unreachable" }) =
      supabaseNotConfigured
    ∧ supabaseBehavior (fun _ => none) ProbeBehavior.hangs 3 =
        AsyncOutcome.resolves supabaseNotConfigured 3 :=
  ⟨((checkSupabase_guard_and_total (fun _ => none)).1 (by decide)).1
      (ProbeResult.failure { message := some "unreachable" }),
   ((checkSupabase_guard_and_total (fun _ => none)).1 (by decide)).2 3⟩

/-- C7: `liveness` always reports status OK; with a start instant at or before
the current reading, its uptime equals `floor((now - startedAt) / 1000)` (a
non-negative integer), and with a non-decreasing clock the uptime across two
successive calls is non-decreasing. -/
theorem liveness_spec (env : Env) (startedAt now now2 : Nat)
    (h1 : startedAt ≤ now) (h2 : now ≤ now2) :
    (liveness env startedAt now).status = Status.ok
    ∧ (liveness env startedAt now).uptime = ((now - startedAt) / 1000 : Nat)
    ∧ 0 ≤ (liveness env startedAt now).uptime
    ∧ (liveness env startedAt now).uptime ≤ (liveness env startedAt now2).uptime := by
  have hval : ∀ m : Nat, startedAt ≤ m →
      (liveness env startedAt m).uptime = ((m - startedAt) / 1000 : Nat) := by
    intro m hm
    have hcast : (m : Int) - (startedAt : Int) = ((m - startedAt : Nat) : Int) := by
      omega
    calc (liveness env startedAt m).uptime
        = Int.fdiv ((m : Int) - (startedAt : Int)) 1000 := rfl
      _ = ((m - startedAt : Nat) : Int) / ((1000 : Nat) : Int) := by
            rw [hcast, Int.fdiv_eq_ediv _ (by norm_num)]
            norm_num
      _ = ((m - startedAt) / 1000 : Nat) := (Int.ofNat_ediv _ _).symm
  refine ⟨rfl, hval now h1, ?_, ?_⟩
  · rw [hval now h1]
    exact Int.ofNat_nonneg _
  · rw [hval now h1, hval now2 (le_trans h1 h2)]
    have : (now - startedAt) / 1000 ≤ (now2 - startedAt) / 1000 :=
      Nat.div_le_div_right (by omega)
    exact_mod_cast this

/-- Witness for C7: process started at 0 ms, read at 1000 ms and again at
2500 ms. -/
theorem liveness_spec_witness :
    (liveness (fun _ => none) 0 1000).status = Status.ok
    ∧ (liveness (fun _ => none) 0 1000).uptime = ((1000 - 0) / 1000 : Nat)
    ∧ 0 ≤ (liveness (fun _ => none) 0 1000).uptime
    ∧ (liveness (fun _ => none) 0 1000).uptime ≤ (liveness (fun _ => none) 0 2500).uptime :=
  liveness_spec (fun _ => none) 0 1000 2500 (by decide) (by decide)

/-- A check result whose `error` field is either absent or a plain string,
never an exception object. -/
def errorIsStrOrAbsent (c : CheckResult) : Prop :=
  c.error = none ∨ ∃ s, c.error = some (ErrVal.str s)

/-- C8: every result the engine can produce — from `checkEnv`, from
`checkSupabase`, or from `mapResult` on a rejected slot — carries in `error`
either nothing or a string description, never an exception object. -/
theorem error_field_string_or_absent (env : Env) (probe : ProbeResult) (reason : JsReason) :
    errorIsStrOrAbsent (checkEnv env)
    ∧ errorIsStrOrAbsent (checkSupabase env probe)
    ∧ errorIsStrOrAbsent (mapResult (SettledResult.rejected reason)) := by
  refine ⟨?_, ?_, ?_⟩
  · unfold checkEnv errorIsStrOrAbsent
    by_cases h : (missingVars env).length > 0 <;> simp [h]
  · unfold checkSupabase errorIsStrOrAbsent supabaseNotConfigured
    by_cases hg : (falsy (env "SUPABASE_URL") || falsy (env "SUPABASE_SERVICE_ROLE_KEY")) = true
    · simp [hg]
    · cases probe <;> simp [hg]
  · unfold mapResult errorIsStrOrAbsent
    simp


/-- A key passes the missing test exactly when it is not present-and-non-empty. -/
theorem envMissing_false_iff (env : Env) (k : String) :
    envMissing env k = false ↔ ∃ s, env k = some s ∧ s ≠ "" := by
  have h1 : envMissing env k = false ↔ ¬(env k = none ∨ env k = some "") := by
    rw [← envMissing_iff env k]
    constructor
    · intro h; simp [h]
    · intro h; simpa using h
  rw [h1]
  cases hk : env k with
  | none => simp
  | some s => simp

/-- C9: the required keys are exactly `SUPABASE_URL` and
`SUPABASE_SERVICE_ROLE_KEY`; `checkEnv` reports ok exactly when both are
present and non-empty; and when both are missing the error message lists them
in the fixed order `"SUPABASE_URL, SUPABASE_SERVICE_ROLE_KEY"`. -/
theorem requiredVars_exact (env : Env) :
    requiredVars = ["SUPABASE_URL", "SUPABASE_SERVICE_ROLE_KEY"]
    ∧ ((checkEnv env).status = Status.ok ↔
        (∃ s, env "SUPABASE_URL" = some s ∧ s ≠ "")
        ∧ ∃ s, env "SUPABASE_SERVICE_ROLE_KEY" = some s ∧ s ≠ "")
    ∧ ((env "SUPABASE_URL" = none ∨ env "SUPABASE_URL" = some "") →
        (env "SUPABASE_SERVICE_ROLE_KEY" = none ∨ env "SUPABASE_SERVICE_ROLE_KEY" = some "") →
        checkEnv env =
          { name := "env"
          , status := Status.degraded
          , error := some (ErrVal.str
              "Missing env vars: SUPABASE_URL, SUPABASE_SERVICE_ROLE_KEY") }) := by
  refine ⟨rfl, ?_, ?_⟩
  · rw [checkEnv_ok_iff, missingVars_eq_nil_iff, envMissing_false_iff, envMissing_false_iff]
  · intro hu hk
    have hmu : envMissing env "SUPABASE_URL" = true := (envMissing_iff env _).mpr hu
    have hmk : envMissing env "SUPABASE_SERVICE_ROLE_KEY" = true := (envMissing_iff env _).mpr hk
    have hms : missingVars env = ["SUPABASE_URL", "SUPABASE_SERVICE_ROLE_KEY"] := by
      unfold missingVars requiredVars
      simp [hmu, hmk]
    have hstr : "Missing env vars: "
        ++ String.intercalate ", " ["SUPABASE_URL", "SUPABASE_SERVICE_ROLE_KEY"]
        = "Missing env vars: SUPABASE_URL, SUPABASE_SERVICE_ROLE_KEY" := by decide
    simp [checkEnv, hms, hstr]

/-- Witness for C9 at the empty environment, where both required keys are
missing. -/
theorem requiredVars_exact_witness :
    checkEnv (fun _ => none) =
      { name := "env"
      , status := Status.degraded
      , error := some (ErrVal.str
          "Missing env vars: SUPABASE_URL, SUPABASE_SERVICE_ROLE_KEY") } :=
  (requiredVars_exact (fun _ => none)).2.2 (Or.inl rfl) (Or.inl rfl)

/-- C10: `checkEnv` and `checkSupabase` guard on the same two variables with
the same absent-or-empty test, so whenever `checkEnv` is degraded,
`checkSupabase` returns the degraded "Supabase env not configured" result
without reaching the probe; consequently every readiness report built in such
an environment has a degraded result in the supabase slot and `ready = false`,
whatever the probe behaviour and settle times. -/
theorem env_degraded_implies_supabase_degraded (env : Env)
    (h : (checkEnv env).status = Status.degraded) :
    (∀ probe, checkSupabase env probe = supabaseNotConfigured)
    ∧ ∀ (pb : ProbeBehavior) (t1 t2 : Nat),
        Option.map CheckResult.status ((readinessFull env pb t1 t2).checks[1]?) =
          some Status.degraded
        ∧ (readinessFull env pb t1 t2).ready = false := by
  have hne : missingVars env ≠ [] := by
    intro hnil
    have hok := (checkEnv_ok_iff env).mpr hnil
    rw [hok] at h
    exact absurd h (by decide)
  have hguard : (falsy (env "SUPABASE_URL") || falsy (env "SUPABASE_SERVICE_ROLE_KEY")) = true := by
    rw [← envMissing_eq_falsy, ← envMissing_eq_falsy]
    by_contra hc
    simp only [Bool.or_eq_true, not_or, Bool.not_eq_true] at hc
    exact hne ((missingVars_eq_nil_iff env).mpr hc)
  constructor
  · intro probe
    simp [checkSupabase, hguard]
  · intro pb t1 t2
    by_cases ht1 : t1 < TIMEOUT_MS <;> by_cases ht2 : t2 < TIMEOUT_MS <;>
      constructor <;>
        simp [readinessFull, readiness, aggregate, run, supabaseBehavior, hguard,
          withTimeout, mapResult, ht1, ht2, h, supabaseNotConfigured, timeoutReason]

/-- Witness for C10 at the empty environment, a hanging probe and a supabase
slot that outlives the timeout. -/
theorem env_degraded_witness :
    Option.map CheckResult.status
        ((readinessFull (fun _ => none) ProbeBehavior.hangs 5 9999).checks[1]?) =
      some Status.degraded
    ∧ (readinessFull (fun _ => none) ProbeBehavior.hangs 5 9999).ready = false :=
  (env_degraded_implies_supabase_degraded (fun _ => none) (by decide)).2 ProbeBehavior.hangs 5 9999

/-- Witness for C1 at a singleton list of ok results and at the production
`readiness` wiring. -/
theorem ready_iff_all_ok_witness :
    (aggregate [{ name := "env", status := Status.ok, error := none }]).ready = true :=
  ((ready_iff_all_ok [{ name := "env", status := Status.ok, error := none }]).1).mpr (by decide)

/-- Witness for C8 at concrete inputs for all three producers. -/
theorem error_field_witness :
    errorIsStrOrAbsent (checkEnv (fun _ => none))
    ∧ errorIsStrOrAbsent (checkSupabase (fun _ => none) ProbeResult.success)
    ∧ errorIsStrOrAbsent (mapResult (SettledResult.rejected { message := none })) :=
  error_field_string_or_absent (fun _ => none) ProbeResult.success { message := none }
